import Mathlib

/-!
Shallow embedding of the EMITY system's numeric core (src/analyzer.py and
src/risk_engine.py).  Python floats are modelled as rationals (ℚ); Python
dicts whose keys may be absent are modelled as structures with `Option`
fields.  Values that may be `None` or non-numeric where the code does a raw
operation on them are modelled with the `PyVal` sum type.
-/

/-- Python value that may sit in a dict field: `None`, a number, or a
non-numeric string.  Used where risk_engine.py reads a raw dict value and
operates on it without coercion. -/
inductive PyVal where
  | vnone
  | vnum (q : ℚ)
  | vstr (s : String)
deriving DecidableEq

/-- Embeds analyzer.py `to_float` (lines 16-26): `None` and values on which
`float(...)` raises give the default.  `vstr` models a non-numeric string. -/
def to_float (v : PyVal) (default : ℚ) : ℚ :=
  match v with
  | PyVal.vnone => default
  | PyVal.vnum q => q
  | PyVal.vstr _ => default

/-- Python `max(a, b)`: the larger value, the first argument on ties. -/
def pymax (a b : ℚ) : ℚ := if a < b then b else a

/-- Python `min(a, b)`: the smaller value, the first argument on ties. -/
def pymin (a b : ℚ) : ℚ := if b < a then b else a

/-- Python `round` to an integer: nearest integer, ties to even
(banker's rounding). -/
def roundHalfEvenInt (q : ℚ) : ℤ :=
  let f := ⌊q⌋
  let frac := q - (f : ℚ)
  if frac < 1/2 then f
  else if 1/2 < frac then f + 1
  else if f % 2 = 0 then f else f + 1

/-- Python `round(q, n)`: round to `n` decimal places, ties to even. -/
def roundTo (n : ℕ) (q : ℚ) : ℚ :=
  ((roundHalfEvenInt (q * 10 ^ n) : ℤ) : ℚ) / 10 ^ n

/-- Embeds `Decimal(str(x)).quantize(Decimal(0.01), rounding=ROUND_DOWN)`
from risk_engine.py line 184: truncate toward zero at two decimals. -/
def quantizeDown2 (q : ℚ) : ℚ :=
  if 0 ≤ q then ((⌊q * 100⌋ : ℤ) : ℚ) / 100 else ((⌈q * 100⌉ : ℤ) : ℚ) / 100

/-! ## Analyzer: range generation and time-in-range (src/analyzer.py) -/

/-- One entry of the dict returned by `PoolAnalyzer._generate_ranges`. -/
structure RangeSpec where
  min_price : ℚ
  max_price : ℚ
  spread_percent : ℚ
  strategy : String
deriving DecidableEq

/-- The three ranges produced by `_generate_ranges`. -/
structure Ranges where
  defensive : RangeSpec
  optimized : RangeSpec
  aggressive : RangeSpec
deriving DecidableEq

/-- Embeds the per-strategy body of `_generate_ranges` (analyzer.py lines
101-117): widen the multiplier pair when volatility exceeds 15, then build
min/max prices and the spread percent. -/
def rangeFor (current_price volatility lower_mult upper_mult : ℚ)
    (strategy : String) : RangeSpec :=
  let lm := if volatility > 15 then lower_mult * (1 - (volatility - 15) / 100) else lower_mult
  let um := if volatility > 15 then upper_mult * (1 + (volatility - 15) / 100) else upper_mult
  { min_price := current_price * lm
    max_price := current_price * um
    spread_percent := (um - lm) * 100
    strategy := strategy }

/-- Embeds `PoolAnalyzer._generate_ranges` (analyzer.py lines 92-119) with
the `RANGE_MULTIPLIERS` table from lines 35-39.  The raw dict values for
`current_price` and `volatility` go through `to_float` with defaults 1.0
and 10.0. -/
def generate_ranges (current_price_raw volatility_raw : PyVal) : Ranges :=
  let current_price := to_float current_price_raw 1
  let volatility := to_float volatility_raw 10
  { defensive := rangeFor current_price volatility (85/100) (115/100) ("defensive")
    optimized := rangeFor current_price volatility (92/100) (108/100) ("optimized")
    aggressive := rangeFor current_price volatility (96/100) (104/100) ("aggressive") }

/-- Embeds `PoolAnalyzer._estimate_time_in_range` (analyzer.py lines
172-192): returns 0.0 for non-positive spread, otherwise a step function of
`spread / max(volatility, 1.0)`. -/
def estimate_time_in_range (volatility spread : ℚ) : ℚ :=
  if spread ≤ 0 then 0
  else
    let r := spread / pymax volatility 1
    if r > 3 then 95/100
    else if r > 2 then 85/100
    else if r > 3/2 then 75/100
    else if r > 1 then 65/100
    else if r > 1/2 then 50/100
    else 35/100

/-- Written from the spec's words for the time-in-range step function (the
five breakpoints of §4.1): ratio > 3 → 0.95, > 2 → 0.85, > 1.5 → 0.75,
> 1 → 0.65, > 0.5 → 0.50, else 0.35.  Used only to compare the code's
function against the spec's closed form. -/
def timeInRangeStepSpec (r : ℚ) : ℚ :=
  if r > 3 then 95/100
  else if r > 2 then 85/100
  else if r > 3/2 then 75/100
  else if r > 1 then 65/100
  else if r > 1/2 then 50/100
  else 35/100

/-! ## Risk Engine data model (src/risk_engine.py) -/

/-- Per-profile limits from `RiskEngine.RISK_PROFILES`
(risk_engine.py lines 21-40). -/
structure RiskProfile where
  max_position_pct : ℚ
  min_score : ℚ
  max_il_tolerance : ℚ
  range_type : String
deriving DecidableEq

/-- Embeds the `RISK_PROFILES` table lookup with the `.get(...,
RISK_PROFILES['conservador'])` default of risk_engine.py line 53. -/
def riskProfileFor (name : String) : RiskProfile :=
  if name = "conservador" then
    { max_position_pct := 20, min_score := 70, max_il_tolerance := 5, range_type := "defensivo" }
  else if name = "moderado" then
    { max_position_pct := 30, min_score := 60, max_il_tolerance := 10, range_type := "otimizado" }
  else if name = "agressivo" then
    { max_position_pct := 40, min_score := 50, max_il_tolerance := 15, range_type := "agressivo" }
  else
    { max_position_pct := 20, min_score := 70, max_il_tolerance := 5, range_type := "defensivo" }

/-- Configuration snapshot held by a `RiskEngine` instance after
`__init__` (risk_engine.py lines 42-54); field defaults are the
`config.get` defaults.  The numeric `float(...)`/`int(...)` coercions of
the constructor are modelled by the fields being already numeric. -/
structure RiskConfig where
  capital_total : ℚ := 10000
  perfil_risco : String := "conservador"
  max_positions : ℕ := 3
  stop_loss : ℚ := 10
  max_position_size : ℚ := 30
  min_score : ℚ := 60
  gas_multiplier : ℚ := 2
deriving DecidableEq

/-- Shorthand for the config's `profile_limits` field
(risk_engine.py line 54). -/
def RiskConfig.profile_limits (cfg : RiskConfig) : RiskProfile :=
  riskProfileFor cfg.perfil_risco

/-- Gas constants of `RiskEngine` (risk_engine.py lines 16-18). -/
def GAS_COST_USD : ℚ := 5

/-- Warning threshold constant `GAS_WARNING_THRESHOLD`
(risk_engine.py line 18). -/
def GAS_WARNING_THRESHOLD : ℚ := 10/100

/-- The consolidated 7-day simulation dict handled by
`_extract_simulation_7d`; each key may be absent (a key that is present
with value `None`, or with a value on which `float` raises inside a
`try`, is modelled as absent, matching the code's local fallbacks). -/
structure Sim where
  net_return : Option ℚ
  net_after_gas : Option ℚ
  time_in_range : Option ℚ
  il_percentage : Option ℚ
  impermanent_loss : Option ℚ
deriving DecidableEq

/-- The `'7d'` dict of one strategy inside the analyzer's simulations
blob (risk_engine.py lines 105-120). -/
structure SimStrat7d where
  net_after_gas : Option ℚ
  net_return : Option ℚ
  impermanent_loss : Option ℚ
  time_in_range : Option ℚ
deriving DecidableEq

/-- The simulations blob written by analyzer.py: one optional strategy
entry per key `defensive`/`optimized`/`aggressive`.  The JSON-string form
accepted by `_extract_simulation_7d` is modelled as already parsed. -/
structure SimulationsBlob where
  defensive : Option SimStrat7d
  optimized : Option SimStrat7d
  aggressive : Option SimStrat7d
deriving DecidableEq

/-- A pool record as consumed by the Risk Engine; each dict key that may
be absent is an `Option`.  `score` is kept as a plain rational here (the
raw, possibly malformed `score` value is treated separately for the
totality analysis). -/
structure Pool where
  pool_address : Option String
  address : Option String
  pair : Option String
  token0_symbol : Option String
  token1_symbol : Option String
  score : Option ℚ
  simulation_7d : Option Sim
  sim_7d : Option Sim
  simulations : Option SimulationsBlob
  apr_7d : Option ℚ
deriving DecidableEq

/-- A pool with no keys set, for building concrete inputs. -/
def emptyPool : Pool :=
  { pool_address := none, address := none, pair := none, token0_symbol := none
    token1_symbol := none, score := none, simulation_7d := none, sim_7d := none
    simulations := none, apr_7d := none }

/-- Embeds `RiskEngine._get_pool_address` (risk_engine.py lines 59-61):
Python `or` falls through on falsy values (None or the empty string). -/
def get_pool_address (p : Pool) : Option String :=
  match p.pool_address with
  | some s => if s = "" then p.address else some s
  | none => p.address

/-- Embeds `RiskEngine._get_pair_label` (risk_engine.py lines 63-69). -/
def get_pair_label (p : Pool) : String :=
  match p.pair with
  | some s =>
      if s = "" then (p.token0_symbol.getD ("TOKEN0")) ++ "/" ++ (p.token1_symbol.getD ("TOKEN1"))
      else s
  | none => (p.token0_symbol.getD ("TOKEN0")) ++ "/" ++ (p.token1_symbol.getD ("TOKEN1"))

/-- Scans the strategies of the blob in order keeping the entry with the
strictly largest `net_after_gas` (falling back to `net_return`), as the
loop of risk_engine.py lines 100-120 does; entries without a usable
number are skipped. -/
def bestStrat (l : List (Option SimStrat7d)) : Option (ℚ × SimStrat7d) :=
  l.foldl
    (fun best os =>
      match os with
      | none => best
      | some d =>
        match d.net_after_gas.orElse (fun _ => d.net_return) with
        | none => best
        | some v =>
          match best with
          | none => some (v, d)
          | some best0 => if v > best0.1 then some (v, d) else some best0)
    none

/-- Embeds `RiskEngine._extract_simulation_7d` (risk_engine.py lines
71-151): prefer a structured `simulation_7d`, then `sim_7d`, then the
best strategy of the simulations blob, else no data (the empty dict,
modelled as `none`). -/
def extract_simulation_7d (pool : Pool) : Option Sim :=
  match pool.simulation_7d with
  | some s => some s
  | none =>
  match pool.sim_7d with
  | some s => some s
  | none =>
  match pool.simulations with
  | none => none
  | some blob =>
    match bestStrat [blob.defensive, blob.optimized, blob.aggressive] with
    | none => none
    | some best =>
      some { net_return := some (best.2.net_return.getD best.1)
             net_after_gas := some best.1
             time_in_range := some (best.2.time_in_range.getD 0)
             il_percentage := some (best.2.impermanent_loss.getD 0)
             impermanent_loss := none }

/-- Structured stand-in for the reason strings built by risk_engine.py
f-strings; each constructor records the message and its interpolated
numbers. -/
inductive Reason where
  | ok
  | scoreBelowMin (score min_score : ℚ)
  | insufficientReturn (estimated required mult : ℚ)
  | noPoolsAvailable
  | marketUnfavorable (market_score : ℚ)
  | noPoolMeetsRisk
  | uncertainConditions
  | viablePools (n : ℕ)
  | positionsAllocated (n : ℕ)
  | stopLossHit (loss_pct : ℚ)
deriving DecidableEq

/-- Structured stand-in for the recommendation strings of
`check_market_conditions`. -/
inductive Recommendation where
  | awaitScanner
  | dontOperateToday
  | adjustProfile
  | cautious
  | operateBest (n : ℕ)
deriving DecidableEq

/-- Structured stand-in for the warning strings of `validate_gas_cost`. -/
inductive Warning where
  | gasHigh (gas_pct : ℚ)
deriving DecidableEq

/-- Result dict of `validate_gas_cost`; `reason` and `gas_percentage`
keys are only present on one of the two return paths. -/
structure GasCheck where
  viable : Bool
  reason : Option Reason
  warnings : List Warning
  gas_percentage : Option ℚ
deriving DecidableEq

/-- Result dict of `calculate_position_size`; the `gas_cost` key is
absent on the early-reject path. -/
structure PositionDecision where
  can_operate : Bool
  reason : Reason
  size_pct : ℚ
  size_usdt : ℚ
  gas_cost : Option ℚ
  warnings : List Warning
deriving DecidableEq

/-- Embeds the `estimated_return_usd` computation of `validate_gas_cost`
(risk_engine.py lines 200-221): percent from the extracted 7d simulation,
with an APR-based fallback when that estimate is not positive and a
truthy `apr_7d` is present. -/
def estimated_return_usd (position_size : ℚ) (pool : Pool) : ℚ :=
  let e0 : ℚ :=
    match extract_simulation_7d pool with
    | some sim =>
        let net_pct := (sim.net_after_gas.orElse (fun _ => sim.net_return)).getD 0
        position_size * (net_pct / 100)
    | none => 0
  if e0 ≤ 0 then
    match pool.apr_7d with
    | some apr => if apr = 0 then e0 else position_size * (apr / 100) * (7 / 365)
    | none => e0
  else e0

/-- Embeds `RiskEngine.validate_gas_cost` (risk_engine.py lines
198-243). -/
def validate_gas_cost (cfg : RiskConfig) (position_size : ℚ) (pool : Pool) : GasCheck :=
  let estimated := estimated_return_usd position_size pool
  let min_return_needed := GAS_COST_USD * cfg.gas_multiplier
  if estimated < min_return_needed then
    { viable := false
      reason := some (Reason.insufficientReturn estimated min_return_needed cfg.gas_multiplier)
      warnings := []
      gas_percentage := none }
  else
    let gas_pct := if estimated > 0 then GAS_COST_USD / estimated * 100 else 100
    { viable := true
      reason := none
      warnings := if gas_pct > GAS_WARNING_THRESHOLD * 100 then [Warning.gasHigh gas_pct] else []
      gas_percentage := some gas_pct }

/-- Truthiness of the optional `override_pct` argument: Python
`if override_pct:` is false for `None` and for zero. -/
def pyTruthyOpt (o : Option ℚ) : Bool :=
  match o with
  | none => false
  | some q => q != 0

/-- Embeds `RiskEngine.calculate_position_size` (risk_engine.py lines
153-196) over a pool whose `score` entry is numeric (or absent,
defaulting to 0). -/
def calculate_position_size (cfg : RiskConfig) (pool : Pool)
    (override_pct : Option ℚ) : PositionDecision :=
  let score := pool.score.getD 0
  if score < cfg.min_score then
    { can_operate := false
      reason := Reason.scoreBelowMin score cfg.min_score
      size_pct := 0
      size_usdt := 0
      gas_cost := none
      warnings := [] }
  else
    let base_pct :=
      if pyTruthyOpt override_pct then pymin (override_pct.getD 0) cfg.max_position_size
      else
        let score_factor := (score - 60) / 40
        10 + (cfg.profile_limits.max_position_pct - 10) * score_factor
    let size_pct := pymin (pymin base_pct cfg.max_position_size) cfg.profile_limits.max_position_pct
    let size_usdt := quantizeDown2 (cfg.capital_total * (size_pct / 100))
    let gas_check := validate_gas_cost cfg size_usdt pool
    { can_operate := gas_check.viable
      reason := gas_check.reason.getD Reason.ok
      size_pct := roundTo 2 size_pct
      size_usdt := size_usdt
      gas_cost := some GAS_COST_USD
      warnings := gas_check.warnings }

/-- Semantics of `calculate_position_size` when the raw `score` entry of
the pool dict may be `None` or a non-numeric string: the comparison
`score < self.min_score` on line 162 raises `TypeError` unless the value
is numeric; with a numeric (or absent, defaulting to 0) score the rest of
the function agrees with the rational model. -/
def calculate_position_size_py (cfg : RiskConfig) (score_raw : Option PyVal)
    (pool : Pool) (override_pct : Option ℚ) : Except String PositionDecision :=
  match score_raw.getD (PyVal.vnum 0) with
  | PyVal.vnum s => Except.ok (calculate_position_size cfg { pool with score := some s } override_pct)
  | PyVal.vnone => Except.error ("TypeError: '<' not supported between instances of 'NoneType' and 'int'")
  | PyVal.vstr _ => Except.error ("TypeError: '<' not supported between instances of 'str' and 'int'")

/-- One entry of the `good_pools` list built by
`check_market_conditions` (risk_engine.py lines 283-289). -/
structure GoodPool where
  pool_address : Option String
  pair : String
  score : ℚ
  net_return : ℚ
  il_percentage : ℚ
deriving DecidableEq

/-- Result dict of `check_market_conditions`; `total_opportunities` is
absent on the empty-input path. -/
structure MarketGate where
  can_operate : Bool
  reason : Reason
  recommendation : Recommendation
  good_pools : List GoodPool
  market_score : ℚ
  total_opportunities : Option ℕ
deriving DecidableEq

/-- The per-pool body of the `check_market_conditions` loop
(risk_engine.py lines 263-290): yields a `GoodPool` entry exactly when
the pool passes the score gate, has simulation data, and meets the IL
tolerance and positive-return criteria. -/
def goodPoolEntry (cfg : RiskConfig) (pool : Pool) : Option GoodPool :=
  let score := pool.score.getD 0
  match extract_simulation_7d pool with
  | none => none
  | some sim =>
    if score ≥ cfg.min_score then
      let il_pct := |(sim.il_percentage.orElse (fun _ => sim.impermanent_loss)).getD 0|
      let net_return := (sim.net_after_gas.orElse (fun _ => sim.net_return)).getD 0
      if il_pct ≤ cfg.profile_limits.max_il_tolerance ∧ net_return > 0 then
        some { pool_address := get_pool_address pool
               pair := get_pair_label pool
               score := score
               net_return := net_return
               il_percentage := il_pct }
      else none
    else none

/-- The accumulation loop of `check_market_conditions` (risk_engine.py
lines 260-290): collects good pools in input order and sums their
scores into `total_score`. -/
def scanPools (cfg : RiskConfig) : List Pool → List GoodPool × ℚ
  | [] => ([], 0)
  | pool :: rest =>
    match goodPoolEntry cfg pool with
    | some gp =>
      let r := scanPools cfg rest
      (gp :: r.1, gp.score + r.2)
    | none => scanPools cfg rest

/-- Embeds `RiskEngine.check_market_conditions` (risk_engine.py lines
245-319). -/
def check_market_conditions (cfg : RiskConfig) (pools : List Pool) : MarketGate :=
  if pools = [] then
    { can_operate := false
      reason := Reason.noPoolsAvailable
      recommendation := Recommendation.awaitScanner
      good_pools := []
      market_score := 0
      total_opportunities := none }
  else
    let scanned := scanPools cfg pools
    let good_pools := scanned.1
    let total_score := scanned.2
    let market_score := if pools = [] then 0 else total_score / (pools.length : ℚ)
    let can_operate : Bool := decide (0 < good_pools.length) && decide (50 ≤ market_score)
    let rr : Reason × Recommendation :=
      if can_operate = false then
        if market_score < 50 then
          (Reason.marketUnfavorable market_score, Recommendation.dontOperateToday)
        else if good_pools.length = 0 then
          (Reason.noPoolMeetsRisk, Recommendation.adjustProfile)
        else
          (Reason.uncertainConditions, Recommendation.cautious)
      else
        (Reason.viablePools good_pools.length,
         Recommendation.operateBest (min good_pools.length cfg.max_positions))
    { can_operate := can_operate
      reason := rr.1
      recommendation := rr.2
      good_pools := good_pools.take cfg.max_positions
      market_score := roundTo 1 market_score
      total_opportunities := some good_pools.length }

/-- One entry of the `allocations` list built by
`calculate_portfolio_allocation` (risk_engine.py lines 352-360). -/
structure Allocation where
  pool_address : Option String
  pair : String
  score : ℚ
  allocation_pct : ℚ
  allocation_usdt : ℚ
  expected_return : ℚ
  warnings : List Warning
deriving DecidableEq

/-- Result dict of `calculate_portfolio_allocation`; the totals keys are
absent on the gate-failure path. -/
structure PortfolioResult where
  can_operate : Bool
  reason : Reason
  recommendation : Recommendation
  allocations : List Allocation
  total_allocated_usdt : Option ℚ
  total_allocated_pct : Option ℚ
  remaining_capital : Option ℚ
  market_score : Option ℚ
deriving DecidableEq

/-- The good-pool summary dict used as the `next(..., pool)` fallback in
risk_engine.py lines 343-346, viewed as a pool record: only the keys
`pool_address`, `pair` and `score` are meaningful to
`calculate_position_size`. -/
def goodPoolAsPool (gp : GoodPool) : Pool :=
  { emptyPool with
      pool_address := gp.pool_address
      pair := some gp.pair
      score := some gp.score }

/-- The full pool looked up for a good-pool entry: the first input pool
with the same address, else the summary itself (risk_engine.py lines
343-346). -/
def fullPoolFor (pools : List Pool) (gp : GoodPool) : Pool :=
  (pools.find? (fun p => get_pool_address p == gp.pool_address)).getD (goodPoolAsPool gp)

/-- The allocation record appended for an accepted pool
(risk_engine.py lines 352-360). -/
def mkAllocation (gp : GoodPool) (position : PositionDecision) : Allocation :=
  { pool_address := gp.pool_address
    pair := gp.pair
    score := gp.score
    allocation_pct := position.size_pct
    allocation_usdt := position.size_usdt
    expected_return := gp.net_return
    warnings := position.warnings }

/-- The allocation loop of `calculate_portfolio_allocation`
(risk_engine.py lines 338-361): Python-style accumulation of the
`allocations` list and the shrinking `remaining_capital`. -/
def allocLoop (cfg : RiskConfig) (pools : List Pool) :
    List GoodPool → List Allocation → ℚ → List Allocation × ℚ
  | [], allocs, remaining => (allocs, remaining)
  | gp :: rest, allocs, remaining =>
    let position := calculate_position_size cfg (fullPoolFor pools gp) none
    if position.can_operate = true ∧ position.size_usdt ≤ remaining then
      allocLoop cfg pools rest (allocs ++ [mkAllocation gp position])
        (remaining - position.size_usdt)
    else
      allocLoop cfg pools rest allocs remaining

/-- Embeds `RiskEngine.calculate_portfolio_allocation` (risk_engine.py
lines 321-375). -/
def calculate_portfolio_allocation (cfg : RiskConfig) (pools : List Pool) : PortfolioResult :=
  let market_check := check_market_conditions cfg pools
  if market_check.can_operate = false then
    { can_operate := false
      reason := market_check.reason
      recommendation := market_check.recommendation
      allocations := []
      total_allocated_usdt := none
      total_allocated_pct := none
      remaining_capital := none
      market_score := none }
  else
    let r := allocLoop cfg pools market_check.good_pools [] cfg.capital_total
    let allocations := r.1
    let remaining_capital := r.2
    let total_allocated := cfg.capital_total - remaining_capital
    let total_allocated_pct :=
      if cfg.capital_total > 0 then total_allocated / cfg.capital_total * 100 else 0
    { can_operate := true
      reason := Reason.positionsAllocated allocations.length
      recommendation := market_check.recommendation
      allocations := allocations
      total_allocated_usdt := some (roundTo 2 total_allocated)
      total_allocated_pct := some (roundTo 2 total_allocated_pct)
      remaining_capital := some (roundTo 2 remaining_capital)
      market_score := some market_check.market_score }

/-- Embeds `RiskEngine.sync_position_values` (risk_engine.py lines
377-389), returning the pair `(pct, usdt)`. -/
def sync_position_values (cfg : RiskConfig) (value : ℚ) (value_type : String) : ℚ × ℚ :=
  if value_type = "pct" then
    let pct := pymin value 100
    let usdt := cfg.capital_total * (pct / 100)
    (roundTo 2 pct, roundTo 2 usdt)
  else
    let usdt := pymin value cfg.capital_total
    let pct := if cfg.capital_total > 0 then usdt / cfg.capital_total * 100 else 0
    (roundTo 2 pct, roundTo 2 usdt)

/-- Result dict of `validate_stop_loss`; only `should_stop` is always
present. -/
structure StopDecision where
  should_stop : Bool
  reason : Option Reason
  loss_amount : Option ℚ
  current_loss_pct : Option ℚ
deriving DecidableEq

/-- Embeds `RiskEngine.validate_stop_loss` (risk_engine.py lines
391-405). -/
def validate_stop_loss (cfg : RiskConfig) (current_pnl position_size : ℚ) : StopDecision :=
  if position_size ≤ 0 then
    { should_stop := false, reason := none, loss_amount := none, current_loss_pct := none }
  else
    let loss_pct := if position_size > 0 then current_pnl / position_size * 100 else 0
    if loss_pct ≤ -cfg.stop_loss then
      { should_stop := true
        reason := some (Reason.stopLossHit loss_pct)
        loss_amount := some current_pnl
        current_loss_pct := none }
    else
      { should_stop := false, reason := none, loss_amount := none
        current_loss_pct := some loss_pct }

/-- The config defaults of `RiskEngine.__init__` (risk_engine.py lines
44-50), matching the spec's default `UserConfig`. -/
def defaultConfig : RiskConfig := {}

/-! ## Spec-side comparison definitions and concrete inputs -/

/-- Sum of the `score` values of the pools that pass the good-pool
criteria, used to state what the code's `total_score` accumulates. -/
def goodScoreSum (cfg : RiskConfig) (pools : List Pool) : ℚ :=
  ((pools.filterMap (goodPoolEntry cfg)).map GoodPool.score).sum

/-- Written from the spec's words for the allocator of §4.3(d): iterate
`good_pools` in order, recompute `calculate_position_size` on the full
pool data, accept exactly when `can_operate` and the size fits the
remaining capital, and decrement the remaining capital — greedy,
order-preserving, non-backtracking.  Used only to compare the code's
loop against this description. -/
def greedyAllocationSpec (cfg : RiskConfig) (pools : List Pool) :
    List GoodPool → ℚ → List Allocation × ℚ
  | [], remaining => ([], remaining)
  | gp :: rest, remaining =>
    let position := calculate_position_size cfg (fullPoolFor pools gp) none
    if position.can_operate = true ∧ position.size_usdt ≤ remaining then
      let r := greedyAllocationSpec cfg pools rest (remaining - position.size_usdt)
      (mkAllocation gp position :: r.1, r.2)
    else
      greedyAllocationSpec cfg pools rest remaining

/-- Pool of the C4 scenario: score 60 and a 7-day simulation whose best
net-after-gas estimate is 0.3 percent. -/
def poolScenarioGas : Pool :=
  { emptyPool with
      score := some 60
      simulation_7d := some
        { net_return := none, net_after_gas := some (3/10), time_in_range := none
          il_percentage := none, impermanent_loss := none } }

/-- Pool whose gas check is viable but draws the 10-percent gas warning:
a 2-percent 7-day return on top of a good score. -/
def poolGasWarning : Pool :=
  { emptyPool with
      pool_address := some ("0xwarn")
      score := some 80
      simulation_7d := some
        { net_return := none, net_after_gas := some 2, time_in_range := none
          il_percentage := some 1, impermanent_loss := none } }

/-- Config with `min_score` lowered to 50, admitting scores below the
60-point interpolation floor. -/
def cfgMinScore50 : RiskConfig := { min_score := 50 }

/-- Pool with score 50, between `cfgMinScore50.min_score` and 60. -/
def poolScore50 : Pool := { emptyPool with score := some 50 }

/-- Good pool for the market-score counterexample: passes every
good-pool criterion. -/
def poolGoodScore80 : Pool :=
  { emptyPool with
      pool_address := some ("0xgood")
      score := some 80
      simulation_7d := some
        { net_return := none, net_after_gas := some 1, time_in_range := none
          il_percentage := some 0, impermanent_loss := none } }

/-- Bad pool for the market-score counterexample: score 40, no
simulation data. -/
def poolBadScore40 : Pool := { emptyPool with score := some 40 }

/-! ## Helper lemmas -/

theorem pymin_eq_min (a b : ℚ) : pymin a b = min a b := by
  unfold pymin
  rcases le_or_lt a b with h | h
  · rw [if_neg (not_lt.mpr h), min_eq_left h]
  · rw [if_pos h, min_eq_right h.le]

theorem pymax_eq_max (a b : ℚ) : pymax a b = max a b := by
  unfold pymax
  rcases le_or_lt b a with h | h
  · rw [if_neg (not_lt.mpr h), max_eq_left h]
  · rw [if_pos h, max_eq_right h.le]

theorem scanPools_snd_eq (cfg : RiskConfig) (pools : List Pool) :
    (scanPools cfg pools).2 = goodScoreSum cfg pools := by
  induction pools with
  | nil => simp [scanPools, goodScoreSum]
  | cons pool rest ih =>
    unfold goodScoreSum at ih ⊢
    cases h : goodPoolEntry cfg pool <;>
      simp [scanPools, h, List.filterMap_cons, ih]

theorem allocLoop_eq_greedy (cfg : RiskConfig) (pools : List Pool) :
    ∀ (gps : List GoodPool) (allocs : List Allocation) (rem : ℚ),
      allocLoop cfg pools gps allocs rem
        = (allocs ++ (greedyAllocationSpec cfg pools gps rem).1,
           (greedyAllocationSpec cfg pools gps rem).2) := by
  intro gps
  induction gps with
  | nil => intro allocs rem; simp [allocLoop, greedyAllocationSpec]
  | cons gp rest ih =>
    intro allocs rem
    by_cases h : (calculate_position_size cfg (fullPoolFor pools gp) none).can_operate = true
        ∧ (calculate_position_size cfg (fullPoolFor pools gp) none).size_usdt ≤ rem
    · simp [allocLoop, greedyAllocationSpec, h, ih]
    · simp [allocLoop, greedyAllocationSpec, h, ih]

theorem allocLoop_sum (cfg : RiskConfig) (pools : List Pool) :
    ∀ (gps : List GoodPool) (allocs : List Allocation) (rem : ℚ),
      ((allocLoop cfg pools gps allocs rem).1.map Allocation.allocation_usdt).sum
          + (allocLoop cfg pools gps allocs rem).2
        = (allocs.map Allocation.allocation_usdt).sum + rem := by
  intro gps
  induction gps with
  | nil => intro allocs rem; simp [allocLoop]
  | cons gp rest ih =>
    intro allocs rem
    by_cases h : (calculate_position_size cfg (fullPoolFor pools gp) none).can_operate = true
        ∧ (calculate_position_size cfg (fullPoolFor pools gp) none).size_usdt ≤ rem
    · simp only [allocLoop, if_pos h, ih]
      simp [mkAllocation]
    · simp [allocLoop, h, ih]

theorem allocLoop_rem_nonneg (cfg : RiskConfig) (pools : List Pool) :
    ∀ (gps : List GoodPool) (allocs : List Allocation) (rem : ℚ),
      0 ≤ rem → 0 ≤ (allocLoop cfg pools gps allocs rem).2 := by
  intro gps
  induction gps with
  | nil => intro allocs rem h; simpa [allocLoop] using h
  | cons gp rest ih =>
    intro allocs rem h
    by_cases hc : (calculate_position_size cfg (fullPoolFor pools gp) none).can_operate = true
        ∧ (calculate_position_size cfg (fullPoolFor pools gp) none).size_usdt ≤ rem
    · simp only [allocLoop, if_pos hc]
      exact ih _ _ (sub_nonneg.mpr hc.2)
    · simp only [allocLoop, if_neg hc]
      exact ih _ _ h

theorem quantizeDown2_cents (q : ℚ) : ∃ k : ℤ, quantizeDown2 q = (k : ℚ) / 100 := by
  unfold quantizeDown2
  by_cases h : 0 ≤ q
  · exact ⟨⌊q * 100⌋, by rw [if_pos h]⟩
  · exact ⟨⌈q * 100⌉, by rw [if_neg h]⟩

theorem size_usdt_cents (cfg : RiskConfig) (pool : Pool) (o : Option ℚ) :
    ∃ k : ℤ, (calculate_position_size cfg pool o).size_usdt = (k : ℚ) / 100 := by
  by_cases h : pool.score.getD 0 < cfg.min_score
  · exact ⟨0, by simp [calculate_position_size, h]⟩
  · simp only [calculate_position_size, if_neg h]
    exact quantizeDown2_cents _

theorem allocLoop_cents (cfg : RiskConfig) (pools : List Pool) :
    ∀ (gps : List GoodPool) (allocs : List Allocation) (rem : ℚ),
      (∀ a ∈ allocs, ∃ k : ℤ, a.allocation_usdt = (k : ℚ) / 100) →
      ∀ a ∈ (allocLoop cfg pools gps allocs rem).1,
        ∃ k : ℤ, a.allocation_usdt = (k : ℚ) / 100 := by
  intro gps
  induction gps with
  | nil => intro allocs rem h; simpa [allocLoop] using h
  | cons gp rest ih =>
    intro allocs rem h
    by_cases hc : (calculate_position_size cfg (fullPoolFor pools gp) none).can_operate = true
        ∧ (calculate_position_size cfg (fullPoolFor pools gp) none).size_usdt ≤ rem
    · simp only [allocLoop, if_pos hc]
      refine ih _ _ ?_
      intro a ha
      rcases List.mem_append.mp ha with ha | ha
      · exact h a ha
      · have : a = mkAllocation gp (calculate_position_size cfg (fullPoolFor pools gp) none) := by
          simpa using ha
        rw [this]
        exact size_usdt_cents cfg (fullPoolFor pools gp) none
    · simp only [allocLoop, if_neg hc]
      exact ih _ _ h

theorem sum_cents (l : List Allocation)
    (h : ∀ a ∈ l, ∃ k : ℤ, a.allocation_usdt = (k : ℚ) / 100) :
    ∃ K : ℤ, (l.map Allocation.allocation_usdt).sum = (K : ℚ) / 100 := by
  induction l with
  | nil => exact ⟨0, by simp⟩
  | cons a rest ih =>
    obtain ⟨k, hk⟩ := h a (by simp)
    obtain ⟨K, hK⟩ := ih (fun b hb => h b (by simp [hb]))
    refine ⟨k + K, ?_⟩
    push_cast
    simp [hk, hK]
    ring

theorem roundHalfEvenInt_intCast (k : ℤ) : roundHalfEvenInt (k : ℚ) = k := by
  simp [roundHalfEvenInt, Int.floor_intCast]

theorem roundTo_two_cents (k : ℤ) : roundTo 2 ((k : ℚ) / 100) = (k : ℚ) / 100 := by
  have h : ((k : ℚ) / 100) * 10 ^ 2 = (k : ℚ) := by ring
  unfold roundTo
  rw [h, roundHalfEvenInt_intCast]
  norm_num

theorem roundTo_nonneg (n : ℕ) (q : ℚ) (h : 0 ≤ q) : 0 ≤ roundTo n q := by
  have h1 : (0 : ℚ) ≤ q * 10 ^ n := by positivity
  have h0 : (0 : ℤ) ≤ ⌊q * 10 ^ n⌋ := Int.floor_nonneg.mpr h1
  simp only [roundTo, roundHalfEvenInt]
  refine div_nonneg ?_ (by positivity)
  split
  · exact_mod_cast h0
  · split
    · exact_mod_cast Int.add_nonneg h0 (by norm_num)
    · split
      · exact_mod_cast h0
      · exact_mod_cast Int.add_nonneg h0 (by norm_num)

/-! ## Claim theorems -/

/-- C2: the Risk Engine operations are claimed to be total over records
with missing/None/non-numeric numeric fields, coercing malformed values
to 0.0.  The code instead raises `TypeError` when the raw `score` value
is `None`, at the comparison `score < self.min_score`
(risk_engine.py line 162). -/
theorem position_size_raises_on_none_score :
    calculate_position_size_py defaultConfig (some PyVal.vnone) emptyPool none
      = Except.error ("TypeError: '<' not supported between instances of 'NoneType' and 'int'") :=
  rfl

/-- C6 counterexample: at volatility 10 and spread 0 the code returns
0.0 (the `spread <= 0` early return of analyzer.py line 175), not the
0.35 the claim assigns to the `else` branch. -/
theorem time_in_range_zero_spread_counterexample :
    estimate_time_in_range 10 0 = 0 ∧ (0 : ℚ) ≠ 35/100 := by
  constructor
  · norm_num [estimate_time_in_range]
  · norm_num

/-- C6 (amended): for spread ≤ 0 the estimate is 0.0; for positive
spread it equals the closed-form five-breakpoint step function of
`spread / max(volatility, 1.0)`. -/
theorem time_in_range_step_function (volatility spread : ℚ) :
    estimate_time_in_range volatility spread
      = if spread ≤ 0 then 0 else timeInRangeStepSpec (spread / max volatility 1) := by
  by_cases h : spread ≤ 0 <;>
    simp [estimate_time_in_range, timeInRangeStepSpec, pymax_eq_max, h]

/-- C7 counterexample: a negative `pct` input is not clamped to the
interval [0, 100]: `sync_position_values(-5, 'pct')` with
`capital_total=10000` returns `(-5.0, -500.0)`. -/
theorem sync_negative_counterexample :
    sync_position_values defaultConfig (-5) ("pct") = (-5, -500) ∧ ¬ (0 : ℚ) ≤ -5 := by
  constructor
  · norm_num [sync_position_values, defaultConfig, pymin, roundTo, roundHalfEvenInt]
  · norm_num

/-- C7 (amended): `sync_position_values` clamps only from above —
`pct` to at most 100 and `usdt` to at most `capital_total`; negative
inputs pass through.  The two spec scenarios hold as stated. -/
theorem sync_clamp_upper_only (cfg : RiskConfig) (v : ℚ) :
    sync_position_values cfg v ("pct")
        = (roundTo 2 (min v 100), roundTo 2 (cfg.capital_total * (min v 100 / 100)))
    ∧ sync_position_values cfg v ("usdt")
        = (roundTo 2 (if cfg.capital_total > 0
              then min v cfg.capital_total / cfg.capital_total * 100 else 0),
           roundTo 2 (min v cfg.capital_total))
    ∧ sync_position_values defaultConfig 15 ("pct") = (15, 1500)
    ∧ sync_position_values defaultConfig 12000 ("usdt") = (100, 10000) := by
  refine ⟨?_, ?_, ?_, ?_⟩
  · simp [sync_position_values, pymin_eq_min]
  · simp [sync_position_values, pymin_eq_min]
  · norm_num [sync_position_values, defaultConfig, pymin, roundTo, roundHalfEvenInt]
  · norm_num [sync_position_values, defaultConfig, pymin, roundTo, roundHalfEvenInt]

/-- C8: for every snapshot (any raw `current_price` and `volatility`
values, including volatility above 15), the generated spread percents
strictly decrease from defensive to optimized to aggressive. -/
theorem ranges_spread_strictly_decreasing (current_price_raw volatility_raw : PyVal) :
    (generate_ranges current_price_raw volatility_raw).defensive.spread_percent >
      (generate_ranges current_price_raw volatility_raw).optimized.spread_percent
    ∧ (generate_ranges current_price_raw volatility_raw).optimized.spread_percent >
      (generate_ranges current_price_raw volatility_raw).aggressive.spread_percent := by
  simp only [generate_ranges, rangeFor]
  by_cases h : to_float volatility_raw 10 > 15 <;>
    simp only [if_pos, if_neg, h, ite_true, ite_false] <;>
    constructor <;> nlinarith [sq_nonneg (to_float volatility_raw 10)]

/-- C1 counterexample: on two pools with scores 80 (good) and 40 (not
good, no simulation), the returned `market_score` is 40 — the sum of the
good pools' scores over the total pool count — while the arithmetic mean
of the scores over all pools, rounded to one decimal, is 60. -/
theorem market_score_counterexample :
    (check_market_conditions defaultConfig [poolGoodScore80, poolBadScore40]).market_score = 40
    ∧ roundTo 1 ((80 + 40 : ℚ) / 2) = 60
    ∧ (40 : ℚ) ≠ 60 := by
  refine ⟨?_, ?_, by norm_num⟩
  · have h2 : ([poolGoodScore80, poolBadScore40] : List Pool) ≠ [] := by simp
    have h3 : scanPools defaultConfig [poolGoodScore80, poolBadScore40]
        = ([{ pool_address := some ("0xgood"), pair := "TOKEN0/TOKEN1", score := 80,
              net_return := 1, il_percentage := 0 }], 80) := by
      norm_num [scanPools, goodPoolEntry, extract_simulation_7d, poolGoodScore80,
        poolBadScore40, emptyPool, defaultConfig, RiskConfig.profile_limits, riskProfileFor,
        Option.orElse, get_pool_address, get_pair_label]
      exact ⟨by decide, by decide⟩
    simp only [check_market_conditions, h3, if_neg h2]
    norm_num [roundTo, roundHalfEvenInt]
  · norm_num [roundTo, roundHalfEvenInt]

/-- C1 (amended): for every non-empty pool list, `market_score` equals
the sum of the scores of the pools passing the good-pool criteria,
divided by the number of ALL input pools, rounded to one decimal — not
the mean over all pools. -/
theorem market_score_averages_good_scores (cfg : RiskConfig) (pools : List Pool)
    (h : pools ≠ []) :
    (check_market_conditions cfg pools).market_score
      = roundTo 1 (goodScoreSum cfg pools / (pools.length : ℚ)) := by
  simp [check_market_conditions, h, scanPools_snd_eq]

/-- Witness for the amended C1 theorem at the two-pool counterexample
input. -/
theorem market_score_averages_good_scores_witness :
    ([poolGoodScore80, poolBadScore40] ≠ ([] : List Pool))
    ∧ (check_market_conditions defaultConfig [poolGoodScore80, poolBadScore40]).market_score
        = roundTo 1 (goodScoreSum defaultConfig [poolGoodScore80, poolBadScore40]
            / (([poolGoodScore80, poolBadScore40] : List Pool).length : ℚ)) :=
  ⟨by simp, market_score_averages_good_scores defaultConfig [poolGoodScore80, poolBadScore40]
    (by simp)⟩

/-- C3 counterexample: with `min_score` lowered to 50 and the default
`conservador` profile, a pool of score 50 passes the gate and gets
`size_pct = 7.5`, below the 10-percent floor the claimed clamp would
guarantee (the clamped formula would give exactly 10). -/
theorem interpolation_clamp_counterexample :
    (calculate_position_size cfgMinScore50 poolScore50 none).size_pct = 15/2
    ∧ (15/2 : ℚ) < 10 := by
  constructor
  · norm_num [calculate_position_size, cfgMinScore50, poolScore50, emptyPool, pyTruthyOpt,
      pymin, RiskConfig.profile_limits, riskProfileFor, roundTo, roundHalfEvenInt,
      validate_gas_cost, estimated_return_usd, extract_simulation_7d, quantizeDown2,
      GAS_COST_USD, GAS_WARNING_THRESHOLD]
  · norm_num

/-- C3 (amended): for every pool passing the `min_score` gate with no
override, the reported size is the interpolation
`10 + (max_position_pct − 10) × (score − 60)/40` with the factor NOT
clamped to [0, 1], capped by `max_position_size` and the profile limit;
scores below 60 admitted by a lower `min_score` therefore produce a
pre-cap size below 10 percent. -/
theorem position_size_interpolation_unclamped (cfg : RiskConfig) (pool : Pool)
    (h : ¬ pool.score.getD 0 < cfg.min_score) :
    (calculate_position_size cfg pool none).size_pct
      = roundTo 2 (min (min
          (10 + (cfg.profile_limits.max_position_pct - 10) * ((pool.score.getD 0 - 60) / 40))
          cfg.max_position_size) cfg.profile_limits.max_position_pct) := by
  simp [calculate_position_size, h, pyTruthyOpt, pymin_eq_min]

/-- Witness for the amended C3 theorem at score 50 under
`min_score = 50`. -/
theorem position_size_interpolation_unclamped_witness :
    ¬ (poolScore50.score.getD 0 < cfgMinScore50.min_score)
    ∧ (calculate_position_size cfgMinScore50 poolScore50 none).size_pct
        = roundTo 2 (min (min
            (10 + (cfgMinScore50.profile_limits.max_position_pct - 10)
              * ((poolScore50.score.getD 0 - 60) / 40))
            cfgMinScore50.max_position_size) cfgMinScore50.profile_limits.max_position_pct) :=
  ⟨by norm_num [poolScore50, cfgMinScore50, emptyPool],
   position_size_interpolation_unclamped cfgMinScore50 poolScore50
     (by norm_num [poolScore50, cfgMinScore50, emptyPool])⟩

/-- C4: the gas check is not viable exactly when the estimated USD
return is below `gas_cost × gas_multiplier`; a nonempty warning list
only ever occurs on the viable path (warnings never block); on every
viable result a warning is attached exactly when the gas cost exceeds
10 percent of the estimated return (the vacuous antecedent covers a
non-positive estimate, where the code pins the gas share to 100 percent
and always warns); and in the spec scenario (default config, pool score
60, best 7d net-after-gas 0.3 percent) the $3 estimated return at the
$1000 position is below the required $10, so `can_operate` is false
with the insufficient-return-vs-gas reason. -/
theorem gas_viability_rule_and_scenario :
    (∀ (cfg : RiskConfig) (position_size : ℚ) (pool : Pool),
        ((validate_gas_cost cfg position_size pool).viable = false ↔
          estimated_return_usd position_size pool < GAS_COST_USD * cfg.gas_multiplier)
        ∧ ((validate_gas_cost cfg position_size pool).warnings ≠ [] →
            (validate_gas_cost cfg position_size pool).viable = true)
        ∧ ((validate_gas_cost cfg position_size pool).viable = true →
            ((validate_gas_cost cfg position_size pool).warnings ≠ [] ↔
              (0 < estimated_return_usd position_size pool →
                GAS_COST_USD > GAS_WARNING_THRESHOLD * estimated_return_usd position_size pool))))
    ∧ (calculate_position_size defaultConfig poolScenarioGas none).can_operate = false
    ∧ (calculate_position_size defaultConfig poolScenarioGas none).reason
        = Reason.insufficientReturn 3 10 2 := by
  refine ⟨fun cfg position_size pool => ?_, ?_, ?_⟩
  · by_cases h : estimated_return_usd position_size pool < GAS_COST_USD * cfg.gas_multiplier
    · simp [validate_gas_cost, h]
    · have hv : (validate_gas_cost cfg position_size pool).viable = true := by
        simp [validate_gas_cost, h]
      refine ⟨by simp [validate_gas_cost, h], fun _ => hv, fun _ => ?_⟩
      by_cases hp : 0 < estimated_return_usd position_size pool
      · have key : (GAS_COST_USD / estimated_return_usd position_size pool * 100
              > GAS_WARNING_THRESHOLD * 100)
            ↔ GAS_COST_USD > GAS_WARNING_THRESHOLD
                * estimated_return_usd position_size pool := by
          have h500 : GAS_COST_USD / estimated_return_usd position_size pool * 100
              = 500 / estimated_return_usd position_size pool := by
            rw [GAS_COST_USD]; ring
          have hthr : GAS_WARNING_THRESHOLD * (100 : ℚ) = 10 := by
            rw [GAS_WARNING_THRESHOLD]; norm_num
          rw [h500, hthr, gt_iff_lt, lt_div_iff₀ hp, gt_iff_lt, GAS_COST_USD,
            GAS_WARNING_THRESHOLD]
          constructor <;> intro hx <;> nlinarith
        by_cases hw : GAS_COST_USD / estimated_return_usd position_size pool * 100
            > GAS_WARNING_THRESHOLD * 100
        · have hgt := key.mp hw
          simp [validate_gas_cost, h, hp, hw, hgt]
        · have hgt' : ¬ GAS_COST_USD > GAS_WARNING_THRESHOLD
              * estimated_return_usd position_size pool := fun hg => hw (key.mpr hg)
          simp [validate_gas_cost, h, hp, hw, hgt']
      · have h100 : (100 : ℚ) > GAS_WARNING_THRESHOLD * 100 := by
          rw [GAS_WARNING_THRESHOLD]; norm_num
        simp [validate_gas_cost, h, hp, h100]
  · norm_num [calculate_position_size, defaultConfig, poolScenarioGas, validate_gas_cost,
      estimated_return_usd, extract_simulation_7d, quantizeDown2, pymin, roundTo,
      roundHalfEvenInt, RiskConfig.profile_limits, riskProfileFor, GAS_COST_USD,
      GAS_WARNING_THRESHOLD, pyTruthyOpt, emptyPool, Option.orElse]
  · norm_num [calculate_position_size, defaultConfig, poolScenarioGas, validate_gas_cost,
      estimated_return_usd, extract_simulation_7d, quantizeDown2, pymin, roundTo,
      roundHalfEvenInt, RiskConfig.profile_limits, riskProfileFor, GAS_COST_USD,
      GAS_WARNING_THRESHOLD, pyTruthyOpt, emptyPool, Option.orElse]

/-- Witness for the C4 theorem: the not-viable direction at the
scenario input, and the viable case at a 2-percent pool where the gas
cost ($5) exceeds 10 percent of the $30 estimated return, so a warning
is attached and viability is preserved. -/
theorem gas_viability_rule_witness :
    (validate_gas_cost defaultConfig 1000 poolScenarioGas).viable = false
    ∧ (validate_gas_cost defaultConfig 1500 poolGasWarning).viable = true
    ∧ (validate_gas_cost defaultConfig 1500 poolGasWarning).warnings ≠ [] := by
  have hest : estimated_return_usd 1500 poolGasWarning = 30 := by
    norm_num [estimated_return_usd, extract_simulation_7d, poolGasWarning, emptyPool,
      Option.orElse]
  have hv : (validate_gas_cost defaultConfig 1500 poolGasWarning).viable = true := by
    cases hb : (validate_gas_cost defaultConfig 1500 poolGasWarning).viable
    · exfalso
      have hlt :=
        ((gas_viability_rule_and_scenario.1 defaultConfig 1500 poolGasWarning).1).mp hb
      rw [hest] at hlt
      norm_num [GAS_COST_USD, defaultConfig] at hlt
    · rfl
  refine ⟨((gas_viability_rule_and_scenario.1 defaultConfig 1000 poolScenarioGas).1).mpr ?_,
    hv, ?_⟩
  · norm_num [estimated_return_usd, extract_simulation_7d, poolScenarioGas, emptyPool,
      GAS_COST_USD, defaultConfig, Option.orElse]
  · refine (((gas_viability_rule_and_scenario.1 defaultConfig 1500 poolGasWarning).2.2)
      hv).mpr ?_
    rw [hest]
    intro _
    norm_num [GAS_COST_USD, GAS_WARNING_THRESHOLD]

/-- C5: `calculate_portfolio_allocation` first runs the market gate; on
gate failure it returns `can_operate=false` with the gate's reason and
recommendation and no allocations; otherwise its allocations and
remaining capital are exactly those of the greedy, order-preserving,
non-backtracking allocator described by the spec, run over the gate's
`good_pools` starting from the full capital. -/
theorem portfolio_allocation_greedy (cfg : RiskConfig) (pools : List Pool) :
    ((check_market_conditions cfg pools).can_operate = false →
      calculate_portfolio_allocation cfg pools
        = { can_operate := false
            reason := (check_market_conditions cfg pools).reason
            recommendation := (check_market_conditions cfg pools).recommendation
            allocations := []
            total_allocated_usdt := none
            total_allocated_pct := none
            remaining_capital := none
            market_score := none })
    ∧ ((check_market_conditions cfg pools).can_operate = true →
        (calculate_portfolio_allocation cfg pools).can_operate = true
        ∧ (calculate_portfolio_allocation cfg pools).allocations
            = (greedyAllocationSpec cfg pools (check_market_conditions cfg pools).good_pools
                cfg.capital_total).1
        ∧ (calculate_portfolio_allocation cfg pools).remaining_capital
            = some (roundTo 2 (greedyAllocationSpec cfg pools
                (check_market_conditions cfg pools).good_pools cfg.capital_total).2)) := by
  constructor
  · intro h
    simp [calculate_portfolio_allocation, h]
  · intro h
    simp [calculate_portfolio_allocation, h, allocLoop_eq_greedy]

/-- Witness for the C5 theorem: the gate-failure branch on the empty
pool list, and the success branch on a single good pool. -/
theorem portfolio_allocation_greedy_witness :
    calculate_portfolio_allocation defaultConfig []
      = { can_operate := false
          reason := (check_market_conditions defaultConfig []).reason
          recommendation := (check_market_conditions defaultConfig []).recommendation
          allocations := []
          total_allocated_usdt := none
          total_allocated_pct := none
          remaining_capital := none
          market_score := none }
    ∧ ((calculate_portfolio_allocation defaultConfig [poolGasWarning]).can_operate = true
       ∧ (calculate_portfolio_allocation defaultConfig [poolGasWarning]).allocations
           = (greedyAllocationSpec defaultConfig [poolGasWarning]
               (check_market_conditions defaultConfig [poolGasWarning]).good_pools
               defaultConfig.capital_total).1
       ∧ (calculate_portfolio_allocation defaultConfig [poolGasWarning]).remaining_capital
           = some (roundTo 2 (greedyAllocationSpec defaultConfig [poolGasWarning]
               (check_market_conditions defaultConfig [poolGasWarning]).good_pools
               defaultConfig.capital_total).2)) := by
  have h2 : ([poolGasWarning] : List Pool) ≠ [] := by simp
  have h3 : scanPools defaultConfig [poolGasWarning]
      = ([{ pool_address := some ("0xwarn"), pair := "TOKEN0/TOKEN1", score := 80,
            net_return := 2, il_percentage := 1 }], 80) := by
    norm_num [scanPools, goodPoolEntry, extract_simulation_7d, poolGasWarning, emptyPool,
      defaultConfig, RiskConfig.profile_limits, riskProfileFor, Option.orElse,
      get_pool_address, get_pair_label]
    exact ⟨by decide, by decide⟩
  have hgate : (check_market_conditions defaultConfig [poolGasWarning]).can_operate = true := by
    simp only [check_market_conditions, h3, if_neg h2]
    norm_num
  exact ⟨(portfolio_allocation_greedy defaultConfig []).1 rfl,
    (portfolio_allocation_greedy defaultConfig [poolGasWarning]).2 hgate⟩

/-- C9: in every successful portfolio allocation the capital account
balances: the remaining capital (before its final 2-decimal rounding) is
never negative, the reported rounded remaining capital is never
negative, `total_allocated_usdt` equals the sum of the accepted
`allocation_usdt` amounts exactly, and that sum plus the remaining
capital equals `capital_total`. -/
theorem portfolio_capital_accounting (cfg : RiskConfig) (pools : List Pool)
    (hcap : 0 ≤ cfg.capital_total)
    (hop : (calculate_portfolio_allocation cfg pools).can_operate = true) :
    ∃ rem : ℚ, 0 ≤ rem
      ∧ (calculate_portfolio_allocation cfg pools).remaining_capital = some (roundTo 2 rem)
      ∧ 0 ≤ roundTo 2 rem
      ∧ (calculate_portfolio_allocation cfg pools).total_allocated_usdt
          = some (((calculate_portfolio_allocation cfg pools).allocations.map
              Allocation.allocation_usdt).sum)
      ∧ ((calculate_portfolio_allocation cfg pools).allocations.map
            Allocation.allocation_usdt).sum + rem = cfg.capital_total := by
  by_cases hgate : (check_market_conditions cfg pools).can_operate = false
  · simp [calculate_portfolio_allocation, hgate] at hop
  · have hgate' : (check_market_conditions cfg pools).can_operate = true := by
      revert hgate
      cases (check_market_conditions cfg pools).can_operate <;> simp
    have hRem : (calculate_portfolio_allocation cfg pools).remaining_capital
        = some (roundTo 2 (allocLoop cfg pools (check_market_conditions cfg pools).good_pools
            [] cfg.capital_total).2) := by
      simp [calculate_portfolio_allocation, hgate']
    have hAllocs : (calculate_portfolio_allocation cfg pools).allocations
        = (allocLoop cfg pools (check_market_conditions cfg pools).good_pools
            [] cfg.capital_total).1 := by
      simp [calculate_portfolio_allocation, hgate']
    have hTot : (calculate_portfolio_allocation cfg pools).total_allocated_usdt
        = some (roundTo 2 (cfg.capital_total - (allocLoop cfg pools
            (check_market_conditions cfg pools).good_pools [] cfg.capital_total).2)) := by
      simp [calculate_portfolio_allocation, hgate']
    have hsum := allocLoop_sum cfg pools (check_market_conditions cfg pools).good_pools
      [] cfg.capital_total
    simp only [List.map_nil, List.sum_nil, zero_add] at hsum
    have hnn := allocLoop_rem_nonneg cfg pools (check_market_conditions cfg pools).good_pools
      [] cfg.capital_total hcap
    have hcents := allocLoop_cents cfg pools (check_market_conditions cfg pools).good_pools
      [] cfg.capital_total (by simp)
    obtain ⟨K, hK⟩ := sum_cents _ hcents
    refine ⟨(allocLoop cfg pools (check_market_conditions cfg pools).good_pools
      [] cfg.capital_total).2, hnn, hRem, roundTo_nonneg 2 _ hnn, ?_, ?_⟩
    · rw [hTot, hAllocs]
      have hdiff : cfg.capital_total - (allocLoop cfg pools
          (check_market_conditions cfg pools).good_pools [] cfg.capital_total).2
          = ((allocLoop cfg pools (check_market_conditions cfg pools).good_pools
              [] cfg.capital_total).1.map Allocation.allocation_usdt).sum := by
        linarith [hsum]
      rw [hdiff, hK, roundTo_two_cents]
    · rw [hAllocs]
      linarith [hsum]

/-- Witness for the C9 theorem on a single good pool under the default
config. -/
theorem portfolio_capital_accounting_witness :
    0 ≤ defaultConfig.capital_total
    ∧ (calculate_portfolio_allocation defaultConfig [poolGasWarning]).can_operate = true
    ∧ (∃ rem : ℚ, 0 ≤ rem
        ∧ (calculate_portfolio_allocation defaultConfig [poolGasWarning]).remaining_capital
            = some (roundTo 2 rem)
        ∧ 0 ≤ roundTo 2 rem
        ∧ (calculate_portfolio_allocation defaultConfig [poolGasWarning]).total_allocated_usdt
            = some (((calculate_portfolio_allocation defaultConfig
                [poolGasWarning]).allocations.map Allocation.allocation_usdt).sum)
        ∧ ((calculate_portfolio_allocation defaultConfig [poolGasWarning]).allocations.map
              Allocation.allocation_usdt).sum + rem = defaultConfig.capital_total) := by
  have h2 : ([poolGasWarning] : List Pool) ≠ [] := by simp
  have h3 : scanPools defaultConfig [poolGasWarning]
      = ([{ pool_address := some ("0xwarn"), pair := "TOKEN0/TOKEN1", score := 80,
            net_return := 2, il_percentage := 1 }], 80) := by
    norm_num [scanPools, goodPoolEntry, extract_simulation_7d, poolGasWarning, emptyPool,
      defaultConfig, RiskConfig.profile_limits, riskProfileFor, Option.orElse,
      get_pool_address, get_pair_label]
    exact ⟨by decide, by decide⟩
  have hgate : (check_market_conditions defaultConfig [poolGasWarning]).can_operate = true := by
    simp only [check_market_conditions, h3, if_neg h2]
    norm_num
  have hop : (calculate_portfolio_allocation defaultConfig [poolGasWarning]).can_operate
      = true := by
    simp [calculate_portfolio_allocation, hgate]
  exact ⟨by norm_num [defaultConfig], hop,
    portfolio_capital_accounting defaultConfig [poolGasWarning]
      (by norm_num [defaultConfig]) hop⟩

/-- C10: a zero `override_pct` is falsy in Python, so
`calculate_position_size` with override 0 behaves exactly as with no
override: sizing falls back to the score-based interpolation. -/
theorem override_zero_ignored (cfg : RiskConfig) (pool : Pool) :
    calculate_position_size cfg pool (some 0) = calculate_position_size cfg pool none := by
  simp [calculate_position_size, pyTruthyOpt]

